import Mathlib

/-!
Shallow embedding of the binomial option-pricing notebook
(`option_payoff` and `option_prices`) and verification of the spec's claims.

Modelling choices:
* Python floats are modelled as real numbers (`ℝ`).
* Python exceptions (`OptionTypeInvalid`, `OptionSpeciesInvalid`, and the
  `ZeroDivisionError` that Python's `/` raises on a zero denominator) are
  modelled by `Except PyError`; a loop body that may raise becomes a
  monadic map that stops at the first error, in iteration order.
* The dict-of-lists lattices `{0: [...], ..., N: [...]}` are modelled as
  `List (List ℝ)` with the outer index the layer `i` and the inner index
  the down-move count `j`; the returned Python list of the three lattices
  becomes a triple `(stock, payoffs, values)`.
* `n_steps` is a natural number (the spec constrains it to a non-negative
  integer; all claims concern `n_steps ≥ 1` or `n_steps = 0`).
-/

namespace BinomialOption

/-- The errors the notebook's code can raise: the two exception classes it
defines, plus Python's built-in `ZeroDivisionError`. -/
inductive PyError where
  | optionTypeInvalid
  | optionSpeciesInvalid
  | zeroDivisionError
deriving DecidableEq

/-- Python's `/` on reals: raises `ZeroDivisionError` when the denominator
is zero, otherwise returns the quotient. -/
noncomputable def pydiv (a b : ℝ) : Except PyError ℝ :=
  if b = 0 then .error .zeroDivisionError else .ok (a / b)

/-- `option_payoff(option_type, asset_price, strike_price)` from the
notebook: `max(0, asset_price - strike_price)` for a call,
`max(0, strike_price - asset_price)` for a put, `OptionTypeInvalid`
otherwise. -/
noncomputable def option_payoff (option_type : String) (asset_price strike_price : ℝ) :
    Except PyError ℝ :=
  if option_type = "call" then .ok (max 0 (asset_price - strike_price))
  else if option_type = "put" then .ok (max 0 (strike_price - asset_price))
  else .error .optionTypeInvalid

/-- Effectful map in iteration order, modelling a Python `for` loop whose
body may raise: the first raised error aborts the whole loop. -/
def mapME {α β : Type} (f : α → Except PyError β) : List α → Except PyError (List β)
  | [] => .ok []
  | a :: as => do
    let b ← f a
    let bs ← mapME f as
    pure (b :: bs)

/-- Stock price written at node `(i, j)` by the forward pass:
`stock_init_price * u**(i-j) * v**j`. -/
noncomputable def stock_node (S0 u v : ℝ) (i j : ℕ) : ℝ :=
  S0 * u ^ (i - j) * v ^ j

/-- The completed stock-price lattice: layer `i` holds nodes `j = 0..i`. -/
noncomputable def stock_lattice (S0 u v : ℝ) (n : ℕ) : List (List ℝ) :=
  (List.range (n + 1)).map fun i => (List.range (i + 1)).map fun j => stock_node S0 u v i j

/-- The forward pass's payoff computation: `option_payoff` applied at every
node in loop order; raises `OptionTypeInvalid` at node `(0,0)` when the
option type is invalid. -/
noncomputable def payoff_lattice_run (option_type : String) (K S0 u v : ℝ) (n : ℕ) :
    Except PyError (List (List ℝ)) :=
  mapME
    (fun i => mapME (fun j => option_payoff option_type (stock_node S0 u v i j) K)
      (List.range (i + 1)))
    (List.range (n + 1))

/-- One interior node of the backward pass, for values `a = V[i_retro][j]`,
`b = V[i_retro][j+1]` and stock price `sP = stock_prices[i_retro-1][j]`:
the `if/elif/else` on `option_species` from the notebook, with Python's
division (which raises on `u == v`). -/
noncomputable def back_node (option_type option_species : String)
    (K u v r dt sP a b : ℝ) : Except PyError ℝ :=
  if option_species = "european" then do
    let x ← pydiv (a - b) (u - v)
    let y ← pydiv (u * b - v * a) ((u - v) * Real.exp (r * dt))
    pure (x + y)
  else if option_species = "american" then do
    let x ← pydiv (a - b) (u - v)
    let y ← pydiv (u * b - v * a) ((u - v) * Real.exp (r * dt))
    let p ← option_payoff option_type sP K
    pure (max (x + y) p)
  else .error .optionSpeciesInvalid

/-- The inner backward loop `for j in range(i_retro)`: consumes the stock
row of layer `i_retro - 1` and the value row of layer `i_retro` in lockstep,
producing the value row of layer `i_retro - 1`. -/
noncomputable def back_row (option_type option_species : String) (K u v r dt : ℝ) :
    List ℝ → List ℝ → Except PyError (List ℝ)
  | sj :: srest, a :: b :: rest => do
    let c ← back_node option_type option_species K u v r dt sj a b
    let cs ← back_row option_type option_species K u v r dt srest (b :: rest)
    pure (c :: cs)
  | _, _ => .ok []

/-- The outer backward loop, `i_retro` descending: given the value row of
layer `i`, produces the list of value rows for layers `0..i`. -/
noncomputable def back_layers (option_type option_species : String)
    (K u v r dt S0 : ℝ) : ℕ → List ℝ → Except PyError (List (List ℝ))
  | 0, row => .ok [row]
  | i + 1, row => do
    let below ← back_row option_type option_species K u v r dt
      ((List.range (i + 1)).map fun j => stock_node S0 u v i j) row
    let rest ← back_layers option_type option_species K u v r dt S0 i below
    pure (rest ++ [row])

/-- `option_prices` from the notebook: computes `step_size = tot_time/n_steps`
(raising `ZeroDivisionError` when `n_steps = 0`), runs the forward pass
(stock prices and payoffs), sets the terminal value row to the terminal
payoff row, runs the backward induction, and returns the triple of
lattices `(stock_prices, option_payoffs, option_values)`. -/
noncomputable def option_prices (option_type option_species : String)
    (strike_price stock_init_price u v risk_free_rate tot_time : ℝ) (n_steps : ℕ) :
    Except PyError (List (List ℝ) × List (List ℝ) × List (List ℝ)) := do
  let step_size ← pydiv tot_time (n_steps : ℝ)
  let payoffs ← payoff_lattice_run option_type strike_price stock_init_price u v n_steps
  let values ← back_layers option_type option_species strike_price u v risk_free_rate
    step_size stock_init_price n_steps (payoffs.getD n_steps [])
  pure (stock_lattice stock_init_price u v n_steps, payoffs, values)

/-! ### Pure descriptions of the lattices, for valid inputs -/

/-- The pure value of `option_payoff` on a valid option type (and `0` on the
strings on which the code raises instead). -/
noncomputable def payoff_val (option_type : String) (S K : ℝ) : ℝ :=
  if option_type = "call" then max 0 (S - K)
  else if option_type = "put" then max 0 (K - S)
  else 0

/-- The continuation value of the backward induction, for successor values
`a = V[i_retro][j]` and `b = V[i_retro][j+1]` and discount factor
`E = exp(r * step_size)`. -/
noncomputable def continuation (u v E a b : ℝ) : ℝ :=
  (a - b) / (u - v) + (u * b - v * a) / ((u - v) * E)

/-- Pure backward recursion: `value_fun am otype K S0 u v E n k j` is the
option value at layer `n - k`, node `j` (so `k` counts layers below
maturity); `am` selects the American early-exercise `max`. -/
noncomputable def value_fun (am : Bool) (option_type : String)
    (K S0 u v E : ℝ) (n : ℕ) : ℕ → ℕ → ℝ
  | 0, j => payoff_val option_type (stock_node S0 u v n j) K
  | k + 1, j =>
    let c := continuation u v E
      (value_fun am option_type K S0 u v E n k j)
      (value_fun am option_type K S0 u v E n k (j + 1))
    if am then max c (payoff_val option_type (stock_node S0 u v (n - (k + 1)) j) K)
    else c

/-- Pure option value at node `(i, j)` of an `n`-step tree. -/
noncomputable def value_node (am : Bool) (option_type : String)
    (K S0 u v E : ℝ) (n i j : ℕ) : ℝ :=
  value_fun am option_type K S0 u v E n (n - i) j

/-- The completed payoff lattice, for a valid option type. -/
noncomputable def payoff_lattice (option_type : String) (K S0 u v : ℝ) (n : ℕ) :
    List (List ℝ) :=
  (List.range (n + 1)).map fun i =>
    (List.range (i + 1)).map fun j => payoff_val option_type (stock_node S0 u v i j) K

/-- The completed option-value lattice, for a valid option type and style. -/
noncomputable def value_lattice (am : Bool) (option_type : String)
    (K S0 u v E : ℝ) (n : ℕ) : List (List ℝ) :=
  (List.range (n + 1)).map fun i =>
    (List.range (i + 1)).map fun j => value_node am option_type K S0 u v E n i j

/-! ### Bridging lemmas: the monadic code equals the pure lattices on valid inputs -/

@[simp] lemma ok_bind {α β : Type} (a : α) (f : α → Except PyError β) :
    (Except.ok a >>= f : Except PyError β) = f a := rfl

@[simp] lemma error_bind {α β : Type} (e : PyError) (f : α → Except PyError β) :
    ((Except.error e : Except PyError α) >>= f) = .error e := rfl

lemma getD_map_range {α : Type} (f : ℕ → α) (d : α) (m i : ℕ) (h : i < m) :
    ((List.range m).map f).getD i d = f i := by
  have h2 : ((List.range m).map f)[i]? = some (f i) := by
    simp [List.getElem?_range, h]
  simp [List.getD_eq_getElem?_getD, h2]

lemma option_payoff_valid (option_type : String) (S K : ℝ)
    (hk : option_type = "call" ∨ option_type = "put") :
    option_payoff option_type S K = .ok (payoff_val option_type S K) := by
  rcases hk with h | h <;> simp [option_payoff, payoff_val, h]

lemma mapME_ok {α β : Type} (f : α → Except PyError β) (g : α → β) (l : List α)
    (h : ∀ a ∈ l, f a = .ok (g a)) : mapME f l = .ok (l.map g) := by
  induction l with
  | nil => simp [mapME]
  | cons a as ih =>
    have ha : f a = .ok (g a) := h a (List.mem_cons_self a as)
    have has : mapME f as = .ok (as.map g) := ih fun x hx => h x (List.mem_cons_of_mem a hx)
    simp [mapME, ha, has]

lemma payoff_lattice_run_valid (option_type : String) (K S0 u v : ℝ) (n : ℕ)
    (hk : option_type = "call" ∨ option_type = "put") :
    payoff_lattice_run option_type K S0 u v n =
      .ok (payoff_lattice option_type K S0 u v n) := by
  unfold payoff_lattice_run payoff_lattice
  exact mapME_ok _ _ _ fun i _ =>
    mapME_ok _ _ _ fun j _ => option_payoff_valid _ _ _ hk

lemma back_node_euro (option_type : String) (K u v r dt sP a b : ℝ) (huv : u ≠ v) :
    back_node option_type "european" K u v r dt sP a b =
      .ok (continuation u v (Real.exp (r * dt)) a b) := by
  have h1 : u - v ≠ 0 := sub_ne_zero.mpr huv
  have h2 : (u - v) * Real.exp (r * dt) ≠ 0 :=
    mul_ne_zero h1 (Real.exp_ne_zero _)
  simp [back_node, pydiv, h1, h2, continuation]

lemma back_node_amer (option_type : String) (K u v r dt sP a b : ℝ) (huv : u ≠ v)
    (hk : option_type = "call" ∨ option_type = "put") :
    back_node option_type "american" K u v r dt sP a b =
      .ok (max (continuation u v (Real.exp (r * dt)) a b) (payoff_val option_type sP K)) := by
  have h1 : u - v ≠ 0 := sub_ne_zero.mpr huv
  have h2 : (u - v) * Real.exp (r * dt) ≠ 0 :=
    mul_ne_zero h1 (Real.exp_ne_zero _)
  simp [back_node, pydiv, h1, h2, option_payoff_valid _ _ _ hk, continuation]

lemma back_row_map (option_type option_species : String) (K u v r dt : ℝ)
    (m : ℕ) (g f step : ℕ → ℝ)
    (hnode : ∀ j, back_node option_type option_species K u v r dt (g j) (f j) (f (j + 1)) =
      .ok (step j)) :
    back_row option_type option_species K u v r dt
      ((List.range m).map g) ((List.range (m + 1)).map f) = .ok ((List.range m).map step) := by
  induction m generalizing g f step with
  | zero => simp [back_row]
  | succ m ih =>
    have hg : (List.range (m + 1)).map g = g 0 :: (List.range m).map fun x => g (x + 1) := by
      rw [List.range_succ_eq_map]
      simp [Function.comp]
    have hf : (List.range (m + 2)).map f = f 0 :: (List.range (m + 1)).map fun x => f (x + 1) := by
      rw [List.range_succ_eq_map]
      simp [Function.comp]
    have hf1 : (List.range (m + 1)).map (fun x => f (x + 1)) =
        f 1 :: (List.range m).map fun x => f (x + 2) := by
      rw [List.range_succ_eq_map]
      simp [Function.comp]
    have hstep : (List.range (m + 1)).map step =
        step 0 :: (List.range m).map fun x => step (x + 1) := by
      rw [List.range_succ_eq_map]
      simp [Function.comp]
    have ihx := ih (fun x => g (x + 1)) (fun x => f (x + 1)) (fun x => step (x + 1))
      (fun j => hnode (j + 1))
    rw [hg, hf, hf1]
    rw [hf1] at ihx
    simp only [back_row, hnode 0, ihx, hstep]
    rfl

lemma value_node_succ (am : Bool) (option_type : String) (K S0 u v E : ℝ)
    (n i j : ℕ) (hi : i + 1 ≤ n) :
    value_node am option_type K S0 u v E n i j =
      (if am then
        max (continuation u v E (value_node am option_type K S0 u v E n (i + 1) j)
              (value_node am option_type K S0 u v E n (i + 1) (j + 1)))
          (payoff_val option_type (stock_node S0 u v i j) K)
      else continuation u v E (value_node am option_type K S0 u v E n (i + 1) j)
        (value_node am option_type K S0 u v E n (i + 1) (j + 1))) := by
  have h1 : n - i = (n - (i + 1)) + 1 := by omega
  have h2 : n - ((n - (i + 1)) + 1) = i := by omega
  rw [value_node, h1, value_fun, h2]
  cases am <;> simp [value_node]

lemma back_layers_ok (option_type option_species : String) (K u v r dt S0 : ℝ)
    (am : Bool) (n : ℕ)
    (hk : option_type = "call" ∨ option_type = "put")
    (hsty : (option_species = "european" ∧ am = false) ∨
      (option_species = "american" ∧ am = true))
    (huv : u ≠ v) (i : ℕ) (hi : i ≤ n) :
    back_layers option_type option_species K u v r dt S0 i
      ((List.range (i + 1)).map fun j =>
        value_node am option_type K S0 u v (Real.exp (r * dt)) n i j) =
      .ok ((List.range (i + 1)).map fun l =>
        (List.range (l + 1)).map fun j =>
          value_node am option_type K S0 u v (Real.exp (r * dt)) n l j) := by
  induction i with
  | zero => simp [back_layers, List.range_succ]
  | succ i ih =>
    have hnode : ∀ j, back_node option_type option_species K u v r dt
        (stock_node S0 u v i j)
        (value_node am option_type K S0 u v (Real.exp (r * dt)) n (i + 1) j)
        (value_node am option_type K S0 u v (Real.exp (r * dt)) n (i + 1) (j + 1)) =
        .ok (value_node am option_type K S0 u v (Real.exp (r * dt)) n i j) := by
      intro j
      rcases hsty with ⟨hs, ha⟩ | ⟨hs, ha⟩
      · subst hs ha
        rw [back_node_euro _ _ _ _ _ _ _ _ _ huv, value_node_succ _ _ _ _ _ _ _ _ _ _ hi]
        simp
      · subst hs ha
        rw [back_node_amer _ _ _ _ _ _ _ _ _ huv hk, value_node_succ _ _ _ _ _ _ _ _ _ _ hi]
        simp
    have hrow := back_row_map option_type option_species K u v r dt (i + 1)
      (stock_node S0 u v i)
      (value_node am option_type K S0 u v (Real.exp (r * dt)) n (i + 1))
      (value_node am option_type K S0 u v (Real.exp (r * dt)) n i) hnode
    have ihx := ih (by omega)
    rw [back_layers]
    simp only [hrow]
    simp only [ok_bind]
    rw [ihx]
    simp only [ok_bind]
    congr 1
    conv_rhs => rw [List.range_succ]
    simp

lemma terminal_row_eq (am : Bool) (option_type : String) (K S0 u v E : ℝ) (n : ℕ) :
    ((List.range (n + 1)).map fun j =>
      payoff_val option_type (stock_node S0 u v n j) K) =
      (List.range (n + 1)).map fun j => value_node am option_type K S0 u v E n n j := by
  refine List.map_congr_left fun j _ => ?_
  simp [value_node, value_fun]

/-- On valid inputs (`option_type` a call or a put, `option_species` european
or american with matching `am` flag, `n ≥ 1`, `u ≠ v`), `option_prices`
returns exactly the three pure lattices. -/
theorem option_prices_ok (option_type option_species : String)
    (K S0 u v r T : ℝ) (n : ℕ) (am : Bool)
    (hk : option_type = "call" ∨ option_type = "put")
    (hsty : (option_species = "european" ∧ am = false) ∨
      (option_species = "american" ∧ am = true))
    (hn : 1 ≤ n) (huv : u ≠ v) :
    option_prices option_type option_species K S0 u v r T n =
      .ok (stock_lattice S0 u v n, payoff_lattice option_type K S0 u v n,
        value_lattice am option_type K S0 u v (Real.exp (r * (T / n))) n) := by
  have hn0 : (n : ℝ) ≠ 0 := Nat.cast_ne_zero.mpr (by omega)
  have hter : ((payoff_lattice option_type K S0 u v n).getD n []) =
      (List.range (n + 1)).map fun j =>
        value_node am option_type K S0 u v (Real.exp (r * (T / n))) n n j := by
    rw [payoff_lattice, getD_map_range _ _ _ _ (by omega)]
    exact terminal_row_eq am option_type K S0 u v _ n
  rw [option_prices]
  rw [pydiv, if_neg hn0]
  simp only [ok_bind]
  rw [payoff_lattice_run_valid _ _ _ _ _ _ hk]
  simp only [ok_bind]
  rw [hter]
  rw [back_layers_ok _ _ _ _ _ _ _ _ _ _ hk hsty huv n le_rfl]
  simp only [ok_bind]
  rfl

/-- Node `(i, j)` of a lattice (with `0` as the out-of-range default). -/
noncomputable def lat_node (L : List (List ℝ)) (i j : ℕ) : ℝ := (L.getD i []).getD j 0

lemma lat_node_stock (S0 u v : ℝ) (n i j : ℕ) (hi : i ≤ n) (hj : j ≤ i) :
    lat_node (stock_lattice S0 u v n) i j = stock_node S0 u v i j := by
  rw [lat_node, stock_lattice, getD_map_range _ _ _ _ (by omega),
    getD_map_range _ _ _ _ (by omega)]

lemma lat_node_payoff (option_type : String) (K S0 u v : ℝ) (n i j : ℕ)
    (hi : i ≤ n) (hj : j ≤ i) :
    lat_node (payoff_lattice option_type K S0 u v n) i j =
      payoff_val option_type (stock_node S0 u v i j) K := by
  rw [lat_node, payoff_lattice, getD_map_range _ _ _ _ (by omega),
    getD_map_range _ _ _ _ (by omega)]

lemma lat_node_value (am : Bool) (option_type : String) (K S0 u v E : ℝ) (n i j : ℕ)
    (hi : i ≤ n) (hj : j ≤ i) :
    lat_node (value_lattice am option_type K S0 u v E n) i j =
      value_node am option_type K S0 u v E n i j := by
  rw [lat_node, value_lattice, getD_map_range _ _ _ _ (by omega),
    getD_map_range _ _ _ _ (by omega)]

/-! ### The claims -/

/-- C1: for every valid input (`option_kind ∈ {call, put}`,
`option_style ∈ {european, american}`, `n_steps ≥ 1`, and `u ≠ v` as the
interface requires), `option_prices` returns the triple of lattices, and the
value lattice equals the payoff lattice node-by-node at the maturity layer:
`value_lattice[N][j] = payoff_lattice[N][j]` for every `j ≤ N`. -/
theorem C1_terminal_equality (option_type option_species : String)
    (K S0 u v r T : ℝ) (n : ℕ) (am : Bool)
    (hk : option_type = "call" ∨ option_type = "put")
    (hsty : (option_species = "european" ∧ am = false) ∨
      (option_species = "american" ∧ am = true))
    (hn : 1 ≤ n) (huv : u ≠ v) (j : ℕ) (hj : j ≤ n) :
    option_prices option_type option_species K S0 u v r T n =
      .ok (stock_lattice S0 u v n, payoff_lattice option_type K S0 u v n,
        value_lattice am option_type K S0 u v (Real.exp (r * (T / n))) n) ∧
    lat_node (value_lattice am option_type K S0 u v (Real.exp (r * (T / n))) n) n j =
      lat_node (payoff_lattice option_type K S0 u v n) n j := by
  refine ⟨option_prices_ok _ _ _ _ _ _ _ _ _ _ hk hsty hn huv, ?_⟩
  rw [lat_node_value _ _ _ _ _ _ _ _ _ _ le_rfl hj, lat_node_payoff _ _ _ _ _ _ _ _ le_rfl hj]
  simp [value_node, value_fun]

/-- C2: for every valid input, the forward lattices are as specified:
`stock_lattice[i][j] = S0 * u^(i-j) * v^j` and
`payoff_lattice[i][j] = payoff(option_kind, stock_lattice[i][j], strike)`,
for every layer `i ≤ N` and node `j ≤ i` (where `payoff_val` is the payoff
evaluator: `max(0, S-K)` for a call and `max(0, K-S)` for a put). -/
theorem C2_forward_pass (option_type option_species : String)
    (K S0 u v r T : ℝ) (n : ℕ) (am : Bool)
    (hk : option_type = "call" ∨ option_type = "put")
    (hsty : (option_species = "european" ∧ am = false) ∨
      (option_species = "american" ∧ am = true))
    (hn : 1 ≤ n) (huv : u ≠ v) (i j : ℕ) (hi : i ≤ n) (hj : j ≤ i) :
    option_prices option_type option_species K S0 u v r T n =
      .ok (stock_lattice S0 u v n, payoff_lattice option_type K S0 u v n,
        value_lattice am option_type K S0 u v (Real.exp (r * (T / n))) n) ∧
    lat_node (stock_lattice S0 u v n) i j = S0 * u ^ (i - j) * v ^ j ∧
    lat_node (payoff_lattice option_type K S0 u v n) i j =
      payoff_val option_type (lat_node (stock_lattice S0 u v n) i j) K := by
  refine ⟨option_prices_ok _ _ _ _ _ _ _ _ _ _ hk hsty hn huv, ?_, ?_⟩
  · rw [lat_node_stock _ _ _ _ _ _ hi hj, stock_node]
  · rw [lat_node_stock _ _ _ _ _ _ hi hj, lat_node_payoff _ _ _ _ _ _ _ _ hi hj]

/-- C3: for European style and every valid input with `u ≠ v`, the returned
value lattice satisfies the backward-induction recurrence: for `i_retro`
from `N` down to `1` and `j < i_retro`,
`V[i_retro-1][j] = (V[i_retro][j] - V[i_retro][j+1])/(u-v)
 + (u*V[i_retro][j+1] - v*V[i_retro][j])/((u-v)*exp(r*(T/N)))`. -/
theorem C3_backward_european (option_type : String) (K S0 u v r T : ℝ) (n : ℕ)
    (hk : option_type = "call" ∨ option_type = "put")
    (hn : 1 ≤ n) (huv : u ≠ v) (iR j : ℕ) (h1 : 1 ≤ iR) (h2 : iR ≤ n) (hj : j < iR) :
    option_prices option_type "european" K S0 u v r T n =
      .ok (stock_lattice S0 u v n, payoff_lattice option_type K S0 u v n,
        value_lattice false option_type K S0 u v (Real.exp (r * (T / n))) n) ∧
    lat_node (value_lattice false option_type K S0 u v (Real.exp (r * (T / n))) n)
        (iR - 1) j =
      (lat_node (value_lattice false option_type K S0 u v (Real.exp (r * (T / n))) n) iR j -
        lat_node (value_lattice false option_type K S0 u v (Real.exp (r * (T / n))) n) iR
          (j + 1)) / (u - v) +
      (u * lat_node (value_lattice false option_type K S0 u v (Real.exp (r * (T / n))) n) iR
          (j + 1) -
        v * lat_node (value_lattice false option_type K S0 u v (Real.exp (r * (T / n))) n) iR
          j) / ((u - v) * Real.exp (r * (T / n))) := by
  refine ⟨option_prices_ok _ _ _ _ _ _ _ _ _ false hk (Or.inl ⟨rfl, rfl⟩) hn huv, ?_⟩
  rw [lat_node_value _ _ _ _ _ _ _ _ _ _ (by omega) (by omega),
    lat_node_value _ _ _ _ _ _ _ _ _ _ h2 (by omega),
    lat_node_value _ _ _ _ _ _ _ _ _ _ h2 (by omega)]
  have hiR : iR - 1 + 1 = iR := by omega
  rw [value_node_succ _ _ _ _ _ _ _ _ _ _ (by omega : (iR - 1) + 1 ≤ n), hiR]
  simp [continuation]

/-- C4: for American style and every valid input with `u ≠ v`, the returned
value lattice satisfies, for `i_retro` from `N` down to `1` and `j < i_retro`:
`V[i_retro-1][j] = max(continuation, payoff(kind, stock_lattice[i_retro-1][j], strike))`
with the same continuation expression as the European case. -/
theorem C4_backward_american (option_type : String) (K S0 u v r T : ℝ) (n : ℕ)
    (hk : option_type = "call" ∨ option_type = "put")
    (hn : 1 ≤ n) (huv : u ≠ v) (iR j : ℕ) (h1 : 1 ≤ iR) (h2 : iR ≤ n) (hj : j < iR) :
    option_prices option_type "american" K S0 u v r T n =
      .ok (stock_lattice S0 u v n, payoff_lattice option_type K S0 u v n,
        value_lattice true option_type K S0 u v (Real.exp (r * (T / n))) n) ∧
    lat_node (value_lattice true option_type K S0 u v (Real.exp (r * (T / n))) n)
        (iR - 1) j =
      max
        ((lat_node (value_lattice true option_type K S0 u v (Real.exp (r * (T / n))) n) iR j -
          lat_node (value_lattice true option_type K S0 u v (Real.exp (r * (T / n))) n) iR
            (j + 1)) / (u - v) +
        (u * lat_node (value_lattice true option_type K S0 u v (Real.exp (r * (T / n))) n) iR
            (j + 1) -
          v * lat_node (value_lattice true option_type K S0 u v (Real.exp (r * (T / n))) n) iR
            j) / ((u - v) * Real.exp (r * (T / n))))
        (payoff_val option_type (lat_node (stock_lattice S0 u v n) (iR - 1) j) K) := by
  refine ⟨option_prices_ok _ _ _ _ _ _ _ _ _ true hk (Or.inr ⟨rfl, rfl⟩) hn huv, ?_⟩
  rw [lat_node_value _ _ _ _ _ _ _ _ _ _ (by omega) (by omega),
    lat_node_value _ _ _ _ _ _ _ _ _ _ h2 (by omega),
    lat_node_value _ _ _ _ _ _ _ _ _ _ h2 (by omega),
    lat_node_stock _ _ _ _ _ _ (by omega) (by omega)]
  have hiR : iR - 1 + 1 = iR := by omega
  rw [value_node_succ _ _ _ _ _ _ _ _ _ _ (by omega : (iR - 1) + 1 ≤ n), hiR]
  simp [continuation]

lemma payoff_val_nonneg (option_type : String) (S K : ℝ) :
    0 ≤ payoff_val option_type S K := by
  rw [payoff_val]
  split_ifs <;> simp

lemma value_fun_amer_nonneg (option_type : String) (K S0 u v E : ℝ) (n : ℕ) :
    ∀ k j, 0 ≤ value_fun true option_type K S0 u v E n k j := by
  intro k
  induction k with
  | zero => intro j; rw [value_fun]; exact payoff_val_nonneg _ _ _
  | succ k ih =>
    intro j
    rw [value_fun]
    simp only [if_true]
    exact le_trans (payoff_val_nonneg _ _ _) (le_max_right _ _)

/-- C7: for American style, any valid kind, `n ≥ 1` and `u ≠ v`, every node of
the returned value lattice is non-negative. -/
theorem C7_american_nonneg (option_type : String) (K S0 u v r T : ℝ) (n : ℕ)
    (hk : option_type = "call" ∨ option_type = "put")
    (hn : 1 ≤ n) (huv : u ≠ v) (i j : ℕ) (hi : i ≤ n) (hj : j ≤ i) :
    option_prices option_type "american" K S0 u v r T n =
      .ok (stock_lattice S0 u v n, payoff_lattice option_type K S0 u v n,
        value_lattice true option_type K S0 u v (Real.exp (r * (T / n))) n) ∧
    0 ≤ lat_node (value_lattice true option_type K S0 u v (Real.exp (r * (T / n))) n) i j := by
  refine ⟨option_prices_ok _ _ _ _ _ _ _ _ _ true hk (Or.inr ⟨rfl, rfl⟩) hn huv, ?_⟩
  rw [lat_node_value _ _ _ _ _ _ _ _ _ _ hi hj, value_node]
  exact value_fun_amer_nonneg _ _ _ _ _ _ _ _ _

lemma continuation_eq (u v E a b : ℝ) (huv : u ≠ v) (hE : E ≠ 0) :
    continuation u v E a b = ((E - v) * a + (u - E) * b) / ((u - v) * E) := by
  have h1 : u - v ≠ 0 := sub_ne_zero.mpr huv
  rw [continuation]
  field_simp
  ring

lemma continuation_mono (u v E a a2 b b2 : ℝ) (huv : v < u) (hE : 0 < E)
    (hvE : v ≤ E) (hEu : E ≤ u) (ha : a ≤ a2) (hb : b ≤ b2) :
    continuation u v E a b ≤ continuation u v E a2 b2 := by
  rw [continuation_eq _ _ _ _ _ (ne_of_gt huv) (ne_of_gt hE),
    continuation_eq _ _ _ _ _ (ne_of_gt huv) (ne_of_gt hE)]
  have hden : 0 < (u - v) * E := mul_pos (by linarith) hE
  have hnum : (E - v) * a + (u - E) * b ≤ (E - v) * a2 + (u - E) * b2 := by
    have g1 : (E - v) * a ≤ (E - v) * a2 := mul_le_mul_of_nonneg_left ha (by linarith)
    have g2 : (u - E) * b ≤ (u - E) * b2 := mul_le_mul_of_nonneg_left hb (by linarith)
    linarith
  exact (div_le_div_iff_of_pos_right hden).mpr hnum

/-- American values dominate European values, node for node, under the
no-arbitrage condition `v ≤ exp(r·δt) ≤ u`. -/
lemma value_fun_amer_ge_euro (option_type : String) (K S0 u v E : ℝ) (n : ℕ)
    (huv : v < u) (hE : 0 < E) (hvE : v ≤ E) (hEu : E ≤ u) :
    ∀ k j, value_fun false option_type K S0 u v E n k j ≤
      value_fun true option_type K S0 u v E n k j := by
  intro k
  induction k with
  | zero => intro j; rw [value_fun, value_fun]
  | succ k ih =>
    intro j
    rw [value_fun, value_fun]
    simp only [if_true, if_false]
    refine le_trans ?_ (le_max_left _ _)
    exact continuation_mono _ _ _ _ _ _ _ huv hE hvE hEu (ih j) (ih (j + 1))

/-- C6 (amended): for identical parameters with a valid kind, `n ≥ 1`,
`u ≠ v`, and the no-arbitrage condition `v ≤ exp(r·(T/N)) ≤ u`, the American
value lattice dominates the European one at every node. (Without the
no-arbitrage condition the claim is false; see the counterexample.) -/
theorem C6_amended_american_ge_european (option_type : String)
    (K S0 u v r T : ℝ) (n : ℕ)
    (hk : option_type = "call" ∨ option_type = "put")
    (hn : 1 ≤ n) (huv : u ≠ v)
    (hvE : v ≤ Real.exp (r * (T / n))) (hEu : Real.exp (r * (T / n)) ≤ u)
    (i j : ℕ) (hi : i ≤ n) (hj : j ≤ i) :
    option_prices option_type "american" K S0 u v r T n =
      .ok (stock_lattice S0 u v n, payoff_lattice option_type K S0 u v n,
        value_lattice true option_type K S0 u v (Real.exp (r * (T / n))) n) ∧
    option_prices option_type "european" K S0 u v r T n =
      .ok (stock_lattice S0 u v n, payoff_lattice option_type K S0 u v n,
        value_lattice false option_type K S0 u v (Real.exp (r * (T / n))) n) ∧
    lat_node (value_lattice false option_type K S0 u v (Real.exp (r * (T / n))) n) i j ≤
      lat_node (value_lattice true option_type K S0 u v (Real.exp (r * (T / n))) n) i j := by
  have hE : 0 < Real.exp (r * (T / n)) := Real.exp_pos _
  have hvu : v < u := lt_of_le_of_ne (le_trans hvE hEu) (Ne.symm huv)
  refine ⟨option_prices_ok _ _ _ _ _ _ _ _ _ true hk (Or.inr ⟨rfl, rfl⟩) hn huv,
    option_prices_ok _ _ _ _ _ _ _ _ _ false hk (Or.inl ⟨rfl, rfl⟩) hn huv, ?_⟩
  rw [lat_node_value _ _ _ _ _ _ _ _ _ _ hi hj, lat_node_value _ _ _ _ _ _ _ _ _ _ hi hj,
    value_node, value_node]
  exact value_fun_amer_ge_euro _ _ _ _ _ _ _ hvu hE hvE hEu _ _

/-! ### Error paths -/

lemma map_range_succ {α : Type} (f : ℕ → α) (m : ℕ) :
    (List.range (m + 1)).map f = f 0 :: (List.range m).map fun x => f (x + 1) := by
  rw [List.range_succ_eq_map]
  simp [Function.comp]

lemma payoff_lattice_run_invalid (option_type : String) (K S0 u v : ℝ) (n : ℕ)
    (h1 : option_type ≠ "call") (h2 : option_type ≠ "put") :
    payoff_lattice_run option_type K S0 u v n = .error .optionTypeInvalid := by
  rw [payoff_lattice_run, List.range_succ_eq_map]
  simp [mapME, List.range_succ, option_payoff, h1, h2]

/-- Shared error lemma: an invalid option kind makes `option_prices` raise
`OptionTypeInvalid` (for any style string), when `n ≥ 1`. -/
lemma option_prices_invalid_kind (option_type option_species : String)
    (K S0 u v r T : ℝ) (n : ℕ)
    (h1 : option_type ≠ "call") (h2 : option_type ≠ "put") (hn : 1 ≤ n) :
    option_prices option_type option_species K S0 u v r T n =
      .error .optionTypeInvalid := by
  have hn0 : (n : ℝ) ≠ 0 := Nat.cast_ne_zero.mpr (by omega)
  rw [option_prices, pydiv, if_neg hn0]
  simp only [ok_bind]
  rw [payoff_lattice_run_invalid _ _ _ _ _ _ h1 h2]
  rfl

lemma back_node_invalid_species (option_type option_species : String)
    (K u v r dt sP a b : ℝ)
    (h1 : option_species ≠ "european") (h2 : option_species ≠ "american") :
    back_node option_type option_species K u v r dt sP a b =
      .error .optionSpeciesInvalid := by
  rw [back_node, if_neg h1, if_neg h2]

/-- Shared error lemma: a valid kind with an invalid style makes
`option_prices` raise `OptionSpeciesInvalid`, when `n ≥ 1`. -/
lemma option_prices_invalid_species (option_type option_species : String)
    (K S0 u v r T : ℝ) (n : ℕ)
    (hk : option_type = "call" ∨ option_type = "put")
    (h1 : option_species ≠ "european") (h2 : option_species ≠ "american")
    (hn : 1 ≤ n) :
    option_prices option_type option_species K S0 u v r T n =
      .error .optionSpeciesInvalid := by
  have hn0 : (n : ℝ) ≠ 0 := Nat.cast_ne_zero.mpr (by omega)
  obtain ⟨m, rfl⟩ : ∃ m, n = m + 1 := ⟨n - 1, by omega⟩
  rw [option_prices, pydiv, if_neg hn0]
  simp only [ok_bind]
  rw [payoff_lattice_run_valid _ _ _ _ _ _ hk]
  simp only [ok_bind]
  have hrow : (payoff_lattice option_type K S0 u v (m + 1)).getD (m + 1) [] =
      (List.range (m + 2)).map fun j =>
        payoff_val option_type (stock_node S0 u v (m + 1) j) K := by
    rw [payoff_lattice, getD_map_range _ _ _ _ (by omega)]
  rw [hrow]
  have hcc : (List.range (m + 2)).map
      (fun j => payoff_val option_type (stock_node S0 u v (m + 1) j) K) =
      payoff_val option_type (stock_node S0 u v (m + 1) 0) K ::
      payoff_val option_type (stock_node S0 u v (m + 1) 1) K ::
      (List.range m).map fun x =>
        payoff_val option_type (stock_node S0 u v (m + 1) (x + 2)) K := by
    simp [map_range_succ]
  have hstk : (List.range (m + 1)).map (fun j => stock_node S0 u v m j) =
      stock_node S0 u v m 0 ::
      (List.range m).map fun x => stock_node S0 u v m (x + 1) := by
    simp [map_range_succ]
  rw [back_layers, hstk, hcc, back_row,
    back_node_invalid_species _ _ _ _ _ _ _ _ _ _ h1 h2]
  rfl

/-- C5 (amended): for `n_steps = 0` and any parameters, `option_prices`
raises `ZeroDivisionError` while computing `step_size = tot_time/n_steps`,
before any lattice is built, and returns no result. -/
theorem C5_amended_zero_steps (option_type option_species : String)
    (K S0 u v r T : ℝ) :
    option_prices option_type option_species K S0 u v r T 0 =
      .error .zeroDivisionError := by
  rw [option_prices, pydiv]
  norm_num

/-- C5 counterexample: at the concrete input
`(call, european, K=100, S0=100, u=2, v=1/2, r=0, T=1, N=0)` the code raises
`ZeroDivisionError` instead of returning one-layer lattices, so the claim
that `option_prices` returns a result for `n_steps = 0` is false. -/
theorem C5_counterexample :
    option_prices "call" "european" 100 100 2 (1/2) 0 1 0 =
      .error .zeroDivisionError := by
  rw [option_prices, pydiv]
  norm_num

/-- C8: for every `option_kind` that is neither `call` nor `put` and every
style string and `n ≥ 1`, `option_prices` fails with `OptionTypeInvalid`
(the notebook's `InvalidOptionKind`) and returns no lattices. -/
theorem C8_invalid_kind (option_type option_species : String)
    (K S0 u v r T : ℝ) (n : ℕ)
    (h1 : option_type ≠ "call") (h2 : option_type ≠ "put") (hn : 1 ≤ n) :
    option_prices option_type option_species K S0 u v r T n =
      .error .optionTypeInvalid :=
  option_prices_invalid_kind _ _ _ _ _ _ _ _ _ h1 h2 hn

/-- C9: for every `option_style` that is neither `european` nor `american`,
with a valid kind and `n ≥ 1`, `option_prices` fails with
`OptionSpeciesInvalid` (the notebook's `InvalidOptionStyle`) and returns no
lattices. -/
theorem C9_invalid_style (option_type option_species : String)
    (K S0 u v r T : ℝ) (n : ℕ)
    (hk : option_type = "call" ∨ option_type = "put")
    (h1 : option_species ≠ "european") (h2 : option_species ≠ "american")
    (hn : 1 ≤ n) :
    option_prices option_type option_species K S0 u v r T n =
      .error .optionSpeciesInvalid :=
  option_prices_invalid_species _ _ _ _ _ _ _ _ _ hk h1 h2 hn

/-- C10: when both the kind and the style are invalid (and `n ≥ 1`), the
kind error wins: the forward pass dispatches on the kind before the backward
pass ever examines the style, so `option_prices` raises `OptionTypeInvalid`,
not `OptionSpeciesInvalid`. -/
theorem C10_invalid_kind_precedence (option_type option_species : String)
    (K S0 u v r T : ℝ) (n : ℕ)
    (h1 : option_type ≠ "call") (h2 : option_type ≠ "put")
    (h3 : option_species ≠ "european") (h4 : option_species ≠ "american")
    (hn : 1 ≤ n) :
    option_prices option_type option_species K S0 u v r T n =
      .error .optionTypeInvalid :=
  option_prices_invalid_kind _ _ _ _ _ _ _ _ _ h1 h2 hn

/-! ### Concrete evaluation of the lattices for the C6 counterexample:
`kind = call, K = 4, S0 = 100, u = 1/2, v = 1/10, r = 0, T = 2, N = 2`. -/

lemma stock_ce : stock_lattice 100 2⁻¹ 10⁻¹ 2 = [[100], [50, 10], [25, 5, 1]] := by
  rw [stock_lattice]
  norm_num [List.range_succ, stock_node]

lemma payoff_ce : payoff_lattice "call" 4 100 2⁻¹ 10⁻¹ 2 =
    [[96], [46, 6], [21, 1, 0]] := by
  rw [payoff_lattice]
  norm_num [List.range_succ, payoff_val, stock_node, max_def]

lemma value_ce_amer : value_lattice true "call" 4 100 2⁻¹ 10⁻¹ 1 2 =
    [[96], [46, 6], [21, 1, 0]] := by
  rw [value_lattice]
  norm_num [List.range_succ, value_node, value_fun, continuation, payoff_val,
    stock_node, max_def]

lemma value_ce_euro : value_lattice false "call" 4 100 2⁻¹ 10⁻¹ 1 2 =
    [[1611/16], [46, 9/4], [21, 1, 0]] := by
  rw [value_lattice]
  norm_num [List.range_succ, value_node, value_fun, continuation, payoff_val,
    stock_node, max_def]

/-- C6 counterexample: with `kind = call, strike = 4, S0 = 100, u = 1/2,
v = 1/10, r = 0, T = 2, N = 2` (a valid kind, `N ≥ 1`, `u ≠ v`), the root of
the American value lattice is `96`, strictly below the European root
`1611/16 = 100.6875`, so the claimed node-wise domination
`value_lattice_american[i][j] ≥ value_lattice_european[i][j]` is false at
node `(0,0)`. -/
theorem C6_counterexample :
    option_prices "call" "american" 4 100 (1/2) (1/10) 0 2 2 =
      .ok ([[100], [50, 10], [25, 5, 1]], [[96], [46, 6], [21, 1, 0]],
        [[96], [46, 6], [21, 1, 0]]) ∧
    option_prices "call" "european" 4 100 (1/2) (1/10) 0 2 2 =
      .ok ([[100], [50, 10], [25, 5, 1]], [[96], [46, 6], [21, 1, 0]],
        [[1611/16], [46, 9/4], [21, 1, 0]]) ∧
    lat_node [[(96 : ℝ)], [46, 6], [21, 1, 0]] 0 0 <
      lat_node [[1611/16], [46, 9/4], [21, 1, 0]] 0 0 := by
  refine ⟨?_, ?_, ?_⟩
  · rw [option_prices_ok "call" "american" 4 100 (1/2) (1/10) 0 2 2 true (Or.inl rfl)
      (Or.inr ⟨rfl, rfl⟩) (by norm_num) (by norm_num)]
    simp [stock_ce, payoff_ce, value_ce_amer]
  · rw [option_prices_ok "call" "european" 4 100 (1/2) (1/10) 0 2 2 false (Or.inl rfl)
      (Or.inl ⟨rfl, rfl⟩) (by norm_num) (by norm_num)]
    simp [stock_ce, payoff_ce, value_ce_euro]
  · rw [lat_node, lat_node]
    norm_num

/-! ### Witnesses: each theorem with hypotheses, applied at a concrete input -/

theorem C1_witness :
    (("call" : String) = "call" ∨ ("call" : String) = "put") ∧
    ((("european" : String) = "european" ∧ false = false) ∨
      (("european" : String) = "american" ∧ false = true)) ∧
    1 ≤ 1 ∧ (2 : ℝ) ≠ 1 ∧ (0 : ℕ) ≤ 1 ∧
    (option_prices "call" "european" 1 1 2 1 0 1 1 =
      .ok (stock_lattice 1 2 1 1, payoff_lattice "call" 1 1 2 1 1,
        value_lattice false "call" 1 1 2 1 (Real.exp (0 * (1 / ((1 : ℕ) : ℝ)))) 1) ∧
    lat_node (value_lattice false "call" 1 1 2 1 (Real.exp (0 * (1 / ((1 : ℕ) : ℝ)))) 1) 1 0 =
      lat_node (payoff_lattice "call" 1 1 2 1 1) 1 0) :=
  ⟨Or.inl rfl, Or.inl ⟨rfl, rfl⟩, le_refl 1, by norm_num, Nat.zero_le 1,
    C1_terminal_equality "call" "european" 1 1 2 1 0 1 1 false (Or.inl rfl)
      (Or.inl ⟨rfl, rfl⟩) (le_refl 1) (by norm_num) 0 (Nat.zero_le 1)⟩

theorem C2_witness :
    (("call" : String) = "call" ∨ ("call" : String) = "put") ∧
    ((("european" : String) = "european" ∧ false = false) ∨
      (("european" : String) = "american" ∧ false = true)) ∧
    1 ≤ 1 ∧ (2 : ℝ) ≠ 1 ∧ (1 : ℕ) ≤ 1 ∧ (0 : ℕ) ≤ 1 ∧
    (option_prices "call" "european" 1 1 2 1 0 1 1 =
      .ok (stock_lattice 1 2 1 1, payoff_lattice "call" 1 1 2 1 1,
        value_lattice false "call" 1 1 2 1 (Real.exp (0 * (1 / ((1 : ℕ) : ℝ)))) 1) ∧
    lat_node (stock_lattice 1 2 1 1) 1 0 = 1 * 2 ^ (1 - 0) * 1 ^ 0 ∧
    lat_node (payoff_lattice "call" 1 1 2 1 1) 1 0 =
      payoff_val "call" (lat_node (stock_lattice 1 2 1 1) 1 0) 1) :=
  ⟨Or.inl rfl, Or.inl ⟨rfl, rfl⟩, le_refl 1, by norm_num, le_refl 1, Nat.zero_le 1,
    C2_forward_pass "call" "european" 1 1 2 1 0 1 1 false (Or.inl rfl)
      (Or.inl ⟨rfl, rfl⟩) (le_refl 1) (by norm_num) 1 0 (le_refl 1) (Nat.zero_le 1)⟩

theorem C3_witness :
    (("call" : String) = "call" ∨ ("call" : String) = "put") ∧
    1 ≤ 1 ∧ (2 : ℝ) ≠ 1 ∧ 1 ≤ 1 ∧ 1 ≤ 1 ∧ (0 : ℕ) < 1 ∧
    (option_prices "call" "european" 1 1 2 1 0 1 1 =
      .ok (stock_lattice 1 2 1 1, payoff_lattice "call" 1 1 2 1 1,
        value_lattice false "call" 1 1 2 1 (Real.exp (0 * (1 / ((1 : ℕ) : ℝ)))) 1) ∧
    lat_node (value_lattice false "call" 1 1 2 1 (Real.exp (0 * (1 / ((1 : ℕ) : ℝ)))) 1)
        (1 - 1) 0 =
      (lat_node (value_lattice false "call" 1 1 2 1 (Real.exp (0 * (1 / ((1 : ℕ) : ℝ)))) 1) 1 0 -
        lat_node (value_lattice false "call" 1 1 2 1 (Real.exp (0 * (1 / ((1 : ℕ) : ℝ)))) 1) 1
          (0 + 1)) / (2 - 1) +
      (2 * lat_node (value_lattice false "call" 1 1 2 1 (Real.exp (0 * (1 / ((1 : ℕ) : ℝ)))) 1) 1
          (0 + 1) -
        1 * lat_node (value_lattice false "call" 1 1 2 1 (Real.exp (0 * (1 / ((1 : ℕ) : ℝ)))) 1) 1
          0) / ((2 - 1) * Real.exp (0 * (1 / ((1 : ℕ) : ℝ))))) :=
  ⟨Or.inl rfl, le_refl 1, by norm_num, le_refl 1, le_refl 1, Nat.zero_lt_one,
    C3_backward_european "call" 1 1 2 1 0 1 1 (Or.inl rfl) (le_refl 1) (by norm_num)
      1 0 (le_refl 1) (le_refl 1) Nat.zero_lt_one⟩

theorem C4_witness :
    (("call" : String) = "call" ∨ ("call" : String) = "put") ∧
    1 ≤ 1 ∧ (2 : ℝ) ≠ 1 ∧ 1 ≤ 1 ∧ 1 ≤ 1 ∧ (0 : ℕ) < 1 ∧
    (option_prices "call" "american" 1 1 2 1 0 1 1 =
      .ok (stock_lattice 1 2 1 1, payoff_lattice "call" 1 1 2 1 1,
        value_lattice true "call" 1 1 2 1 (Real.exp (0 * (1 / ((1 : ℕ) : ℝ)))) 1) ∧
    lat_node (value_lattice true "call" 1 1 2 1 (Real.exp (0 * (1 / ((1 : ℕ) : ℝ)))) 1)
        (1 - 1) 0 =
      max
        ((lat_node (value_lattice true "call" 1 1 2 1 (Real.exp (0 * (1 / ((1 : ℕ) : ℝ)))) 1) 1
            0 -
          lat_node (value_lattice true "call" 1 1 2 1 (Real.exp (0 * (1 / ((1 : ℕ) : ℝ)))) 1) 1
            (0 + 1)) / (2 - 1) +
        (2 * lat_node (value_lattice true "call" 1 1 2 1 (Real.exp (0 * (1 / ((1 : ℕ) : ℝ)))) 1) 1
            (0 + 1) -
          1 * lat_node (value_lattice true "call" 1 1 2 1 (Real.exp (0 * (1 / ((1 : ℕ) : ℝ)))) 1) 1
            0) / ((2 - 1) * Real.exp (0 * (1 / ((1 : ℕ) : ℝ)))))
        (payoff_val "call" (lat_node (stock_lattice 1 2 1 1) (1 - 1) 0) 1)) :=
  ⟨Or.inl rfl, le_refl 1, by norm_num, le_refl 1, le_refl 1, Nat.zero_lt_one,
    C4_backward_american "call" 1 1 2 1 0 1 1 (Or.inl rfl) (le_refl 1) (by norm_num)
      1 0 (le_refl 1) (le_refl 1) Nat.zero_lt_one⟩

theorem C6_amended_witness :
    (("call" : String) = "call" ∨ ("call" : String) = "put") ∧
    1 ≤ 1 ∧ (2 : ℝ) ≠ 1/2 ∧
    (1/2 : ℝ) ≤ Real.exp (0 * (1 / ((1 : ℕ) : ℝ))) ∧
    Real.exp (0 * (1 / ((1 : ℕ) : ℝ))) ≤ 2 ∧
    (0 : ℕ) ≤ 1 ∧ (0 : ℕ) ≤ 0 ∧
    (option_prices "call" "american" 1 1 2 (1/2) 0 1 1 =
      .ok (stock_lattice 1 2 (1/2) 1, payoff_lattice "call" 1 1 2 (1/2) 1,
        value_lattice true "call" 1 1 2 (1/2) (Real.exp (0 * (1 / ((1 : ℕ) : ℝ)))) 1) ∧
    option_prices "call" "european" 1 1 2 (1/2) 0 1 1 =
      .ok (stock_lattice 1 2 (1/2) 1, payoff_lattice "call" 1 1 2 (1/2) 1,
        value_lattice false "call" 1 1 2 (1/2) (Real.exp (0 * (1 / ((1 : ℕ) : ℝ)))) 1) ∧
    lat_node (value_lattice false "call" 1 1 2 (1/2) (Real.exp (0 * (1 / ((1 : ℕ) : ℝ)))) 1)
        0 0 ≤
      lat_node (value_lattice true "call" 1 1 2 (1/2) (Real.exp (0 * (1 / ((1 : ℕ) : ℝ)))) 1)
        0 0) :=
  ⟨Or.inl rfl, le_refl 1, by norm_num, by norm_num [Real.exp_zero],
    by norm_num [Real.exp_zero], Nat.zero_le 1, le_refl 0,
    C6_amended_american_ge_european "call" 1 1 2 (1/2) 0 1 1 (Or.inl rfl) (le_refl 1)
      (by norm_num) (by norm_num [Real.exp_zero]) (by norm_num [Real.exp_zero])
      0 0 (Nat.zero_le 1) (le_refl 0)⟩

theorem C7_witness :
    (("call" : String) = "call" ∨ ("call" : String) = "put") ∧
    1 ≤ 1 ∧ (2 : ℝ) ≠ 1 ∧ (0 : ℕ) ≤ 1 ∧ (0 : ℕ) ≤ 0 ∧
    (option_prices "call" "american" 1 1 2 1 0 1 1 =
      .ok (stock_lattice 1 2 1 1, payoff_lattice "call" 1 1 2 1 1,
        value_lattice true "call" 1 1 2 1 (Real.exp (0 * (1 / ((1 : ℕ) : ℝ)))) 1) ∧
    0 ≤ lat_node (value_lattice true "call" 1 1 2 1 (Real.exp (0 * (1 / ((1 : ℕ) : ℝ)))) 1)
      0 0) :=
  ⟨Or.inl rfl, le_refl 1, by norm_num, Nat.zero_le 1, le_refl 0,
    C7_american_nonneg "call" 1 1 2 1 0 1 1 (Or.inl rfl) (le_refl 1) (by norm_num)
      0 0 (Nat.zero_le 1) (le_refl 0)⟩

theorem C8_witness :
    ("forward" : String) ≠ "call" ∧ ("forward" : String) ≠ "put" ∧ 1 ≤ 1 ∧
    option_prices "forward" "european" 100 100 2 1 0 1 1 =
      .error .optionTypeInvalid :=
  ⟨by decide, by decide, le_refl 1,
    C8_invalid_kind "forward" "european" 100 100 2 1 0 1 1 (by decide) (by decide)
      (le_refl 1)⟩

theorem C9_witness :
    (("call" : String) = "call" ∨ ("call" : String) = "put") ∧
    ("bermudan" : String) ≠ "european" ∧ ("bermudan" : String) ≠ "american" ∧ 1 ≤ 1 ∧
    option_prices "call" "bermudan" 100 100 2 1 0 1 1 =
      .error .optionSpeciesInvalid :=
  ⟨Or.inl rfl, by decide, by decide, le_refl 1,
    C9_invalid_style "call" "bermudan" 100 100 2 1 0 1 1 (Or.inl rfl) (by decide)
      (by decide) (le_refl 1)⟩

theorem C10_witness :
    ("forward" : String) ≠ "call" ∧ ("forward" : String) ≠ "put" ∧
    ("bermudan" : String) ≠ "european" ∧ ("bermudan" : String) ≠ "american" ∧ 1 ≤ 1 ∧
    option_prices "forward" "bermudan" 100 100 2 1 0 1 1 =
      .error .optionTypeInvalid :=
  ⟨by decide, by decide, by decide, by decide, le_refl 1,
    C10_invalid_kind_precedence "forward" "bermudan" 100 100 2 1 0 1 1 (by decide)
      (by decide) (by decide) (by decide) (le_refl 1)⟩

end BinomialOption
